import Mathlib

/-!
Shallow embedding of the chdkptp.py wrapper (package `chdkptp`: `device.py`,
`lua.py`, `util.py`) and proofs about it.  Python strings are modelled as
`List Char`, Python numbers as `ℚ`, machine behaviour that can raise as
`Except`/`Option`.  Python 2 `round` (half away from zero) is `pyRound`,
`int()` truncation is `pyInt`.
-/

namespace Chdkptp

/-- Python 2 `round`: round half away from zero. -/
def pyRound (q : ℚ) : ℤ := if 0 ≤ q then ⌊q + 1 / 2⌋ else ⌈q - 1 / 2⌉

/-- Python `int()` on a number: truncation toward zero. -/
def pyInt (q : ℚ) : ℤ := if 0 ≤ q then ⌊q⌋ else ⌈q⌉

/-- `hay` starts with `needle` (Python `str.startswith`). -/
def listStartsWith : List Char → List Char → Bool
  | _, [] => true
  | [], _ :: _ => false
  | a :: as, b :: bs => a == b && listStartsWith as bs

/-- `needle` occurs as a contiguous substring of `hay` (Python `in`). -/
def listHasSub : List Char → List Char → Bool
  | [], needle => needle.isEmpty
  | c :: rest, needle => listStartsWith (c :: rest) needle || listHasSub rest needle

/-- `os.path.join("A", p)` under POSIX semantics: an absolute `p` discards the
first component, otherwise the components are joined with a slash. -/
def posixJoinA : List Char → List Char
  | [] => ['A', '/']
  | c :: cs => if c = '/' then c :: cs else 'A' :: '/' :: c :: cs

/-- `util.to_camerapath`: prepend the storage root unless the lowercased path
already starts with `a/`. -/
def to_camerapath (path : List Char) : List Char :=
  if listStartsWith (path.map Char.toLower) ['a', '/'] then path
  else posixJoinA path

/-- `util.apex_to_apex96`: `x = apex*96; return round(x) if x > 0 else -round(x)`. -/
def apex_to_apex96 (apex : ℚ) : ℤ :=
  let x := apex * 96
  if 0 < x then pyRound x else -(pyRound x)

/-- Outcome of the local phase of `ChdkDevice.lua_execute` (device.py):
either some source text is sent to the device (`con:exec`/`con:execwait`), or
a local `ValueError` is raised before any device interaction. -/
inductive LuaExecOutcome where
  | sent (code : List Char)
  | localError (msg : List Char)
deriving DecidableEq

/-- Local phase of `ChdkDevice.lua_execute` (device.py lines 166-177):
with `wait=False` the code is sent as-is; with `wait=True` and `do_return=True`,
if `"return"` does not occur in the code then either `"return "` is prepended
(single-expression code: no `;` outside the last position and no newline) or a
`ValueError` is raised. -/
def lua_execute (lua_code : List Char) (wait do_return : Bool) : LuaExecOutcome :=
  if !wait then .sent lua_code
  else if do_return && !(listHasSub lua_code ("return".toList)) then
    if !(lua_code.dropLast.contains ';') && !(lua_code.contains '\n') then
      .sent (("return ".toList) ++ lua_code)
    else
      .localError ("do_return was specified, but no return statement was specified in the supplied lua_code".toList)
  else .sent lua_code

/-- Truthiness of the device-side `get_mode()` result mapped through
`(get_mode() and 1 or 0)`; `g n` is the value observed by the n-th remote
`get_mode` poll. -/
def modeObs (g : ℕ → Bool) (n : ℕ) : ℕ := if g n then 1 else 0

/-- The Lua poll loop of `ChdkDevice.switch_mode`:
`while (get_mode() and 1 or 0) ~= mode_num and i < 300 do sleep(10); i = i + 1 end`.
The loop counter starts at `i` and the remaining iteration budget (`300 - i` in
the source) is the structural fuel; the returned value is the final `i`, which
equals the number of executed iterations (each with one `sleep(10)`) when
started from `i = 0`. -/
def modePollLoop (g : ℕ → Bool) (target : ℕ) : ℕ → ℕ → ℕ
  | i, 0 => i
  | i, fuel + 1 => if modeObs g i ≠ target then modePollLoop g target (i + 1) fuel else i

/-- Result of `ChdkDevice.switch_mode`: whether `PTPError` is raised
(`timedOut`), the number of poll-loop iterations, and the total milliseconds
slept inside the loop. -/
structure SwitchModeRun where
  timedOut : Bool
  iterations : ℕ
  sleptMs : ℕ
deriving DecidableEq

/-- `ChdkDevice.switch_mode` for a valid target mode (`targetRecord` is
`mode == 'record'`): first the `self.mode == mode` precheck (one `get_mode`
call), then the remote script: `switch_mode_usb(mode_num)`, the bounded poll
loop, and the final `get_mode` check whose failure makes the script return
`false` and Python raise `PTPError('Could not switch mode')`. -/
def switch_mode (g : ℕ → Bool) (targetRecord : Bool) : SwitchModeRun :=
  if g 0 == targetRecord then ⟨false, 0, 0⟩
  else
    let target := if targetRecord then 1 else 0
    let rest := fun n => g (n + 1)
    let final := modePollLoop rest target 0 300
    ⟨modeObs rest final != target, final, 10 * final⟩

/-- One frame produced by the `get_frames` generator: a device live-view fetch
(`con:get_live_data` via the Lua closure) followed by a yielded frame. -/
inductive FrameEvent where
  | deviceFetch
  | frameYield
deriving DecidableEq

/-- The supported `get_frames` formats ('ppm', 'jpg', 'png'). -/
def FRAME_FORMATS : List (List Char) := ["ppm".toList, "jpg".toList, "png".toList]

/-- `ChdkDevice.get_frames` (device.py lines 360-405), modelled as the event
trace of consuming `numFrames` frames from the generator: the format check is
the first statement of the generator body, so an unsupported format raises
`ValueError` before any device fetch; otherwise `scaled` defaults to
`format == 'ppm'` and each consumed frame performs one device fetch. -/
def get_frames (format : List Char) (scaled : Option Bool) (numFrames : ℕ) :
    Except (List Char) (Bool × List FrameEvent) :=
  if !(FRAME_FORMATS.contains format) then
    .error ("format has to be one of ppm, jpg or png".toList)
  else
    let sc := scaled.getD (format == "ppm".toList)
    .ok (sc, (List.replicate numFrames [FrameEvent.deviceFetch, FrameEvent.frameYield]).flatten)

/-- The unit suffixes accepted by `DISTANCE_RE` (`in` is a Lean keyword, so
the last one is named `inch`). -/
inductive DistUnit where
  | mm
  | cm
  | m
  | ft
  | inch
deriving DecidableEq

/-- `DISTANCE_FACTORS` from device.py. -/
def DISTANCE_FACTORS : DistUnit → ℚ
  | .mm => 1
  | .cm => 100
  | .m => 1000
  | .ft => 3048 / 10
  | .inch => 254 / 10

/-- Longest digit run at the front of the string (the `\d+` pieces of
`DISTANCE_RE`). -/
def takeDigits : List Char → List Char × List Char
  | [] => ([], [])
  | c :: cs =>
    if c.isDigit then
      let r := takeDigits cs
      (c :: r.1, r.2)
    else ([], c :: cs)

/-- Numeric value of a digit run. -/
def digitsToNat (ds : List Char) : ℕ := ds.foldl (fun a c => 10 * a + (c.toNat - 48)) 0

/-- The numeric group `\d+(?:.\d+)?` of `DISTANCE_RE` together with
`float()`, on decimal strings: an integer part and an optional fractional
part after a dot.  Returns the parsed value and the unconsumed rest. -/
def parseNumber (s : List Char) : Option (ℚ × List Char) :=
  let d1 := takeDigits s
  if d1.1.isEmpty then none
  else
    match d1.2 with
    | '.' :: rest =>
      let d2 := takeDigits rest
      if d2.1.isEmpty then some ((digitsToNat d1.1 : ℚ), d1.2)
      else some ((digitsToNat d1.1 : ℚ) + (digitsToNat d2.1 : ℚ) / ((10 : ℚ) ^ d2.1.length), d2.2)
    | _ => some ((digitsToNat d1.1 : ℚ), d1.2)

/-- The unit group `(mm|cm|m|ft|in)` of `DISTANCE_RE`, matched against the
whole remaining string (the claims quantify over exact `<number><unit>`
strings). -/
def parseUnit : List Char → Option DistUnit
  | ['m', 'm'] => some .mm
  | ['c', 'm'] => some .cm
  | ['m'] => some .m
  | ['f', 't'] => some .ft
  | ['i', 'n'] => some .inch
  | _ => none

/-- `DISTANCE_RE.match(s).groups()` with `float()` applied to the numeric
group, for exact `<number><unit>` strings. -/
def parseDistanceStr (s : List Char) : Option (ℚ × DistUnit) :=
  match parseNumber s with
  | none => none
  | some (q, rest) =>
    match parseUnit rest with
    | none => none
    | some u => some (q, u)

/-- The `distance` keyword argument: a number (millimeters) or a string. -/
inductive DistanceArg where
  | num (q : ℚ)
  | str (s : List Char)

/-- The keyword arguments of `ChdkDevice.shoot`; `none` on an `Option` field
models an absent keyword.  Numeric fields are typed `ℚ` (so the `isinstance
Number` checks of the source always pass) and `nd_filter` is typed
`Option Bool` (so the membership check in `{True, False, None}` always
passes). -/
structure ShootKwargs where
  shutter_speed : Option ℚ := none
  real_iso : Option ℚ := none
  market_iso : Option ℚ := none
  aperture : Option ℚ := none
  isomode : Option ℚ := none
  nd_filter : Option Bool := none
  distance : Option DistanceArg := none
  dng : Option Bool := none
  raw : Option Bool := none
  stream : Option Bool := none
  wait : Option Bool := none
  download_after : Option Bool := none
  remove_after : Option Bool := none

/-- `sum(1 for x in ('real_iso', 'market_iso', 'isomode') if kwargs.get(x) is
not None)`. -/
def countIso (k : ShootKwargs) : ℕ :=
  (if k.real_iso.isSome then 1 else 0) + (if k.market_iso.isSome then 1 else 0)
    + (if k.isomode.isSome then 1 else 0)

/-- The `distance` validation clause: present and neither a number nor a
string matched by `DISTANCE_RE`. -/
def badDistance (k : ShootKwargs) : Bool :=
  match k.distance with
  | none => false
  | some (.num _) => false
  | some (.str s) => !(parseDistanceStr s).isSome

/-- `ChdkDevice._validate_shoot_args` (device.py lines 544-577).  The numeric
type checks and the `nd_filter` membership check are enforced by the field
types of `ShootKwargs` and cannot fail in this embedding; the remaining
checks are modelled in source order. -/
def validate_shoot_args (k : ShootKwargs) : Except (List Char) Unit :=
  if 2 ≤ countIso k then
    .error ("Only one of real_iso, market_iso or isomode can be set.".toList)
  else if badDistance k then
    .error ("distance must be an integer or a string with a unit suffix".toList)
  else if !(k.wait.getD true)
      && (k.stream.getD false || k.download_after.getD false || k.remove_after.getD false) then
    .error ("Cannot stream, remove and download after when wait is False".toList)
  else if !(k.stream.getD true) && k.dng.getD false
      && (k.download_after.getD false || k.remove_after.getD false) then
    .error ("Non-streaming capture with subsequent download or removal is only supported for JPEG".toList)
  else .ok ()

/-- The validation phase of `ChdkDevice.shoot` (device.py line 449): the call
is `self._validate_shoot_args()` with no arguments, so the validator always
runs on an empty keyword set regardless of what the caller passed. -/
def shoot_validation (_kwargs : ShootKwargs) : Except (List Char) Unit :=
  validate_shoot_args {}

/-- The structured options record built by `ChdkDevice._parse_shoot_args`
(device.py lines 579-613); `none` models an absent key. -/
structure ShootOptions where
  av : Option ℚ := none
  sv : Option ℚ := none
  svm : Option ℚ := none
  isomode : Option ℤ := none
  tv : Option ℚ := none
  nd : Option ℕ := none
  sd : Option ℤ := none
  dng : Option ℕ := none
  raw : Option ℕ := none
  fformat : Option ℕ := none
  info : Option Bool := none

/-- `ChdkDevice._parse_shoot_args`.  Returns `none` when a string `distance`
does not match `DISTANCE_RE` (the source then crashes on
`.match(...).groups()`).  The `nd` field mirrors
`if kwargs.get('nd_filter'): options['nd'] = 1 if kwargs.get('nd_filter')
else 2` — the outer guard is on Python truthiness, so the `else 2` branch is
unreachable. -/
def parse_shoot_args (k : ShootKwargs) : Option ShootOptions :=
  let sdVal : Option (Option ℤ) :=
    match k.distance with
    | none => some none
    | some (.num q) => some (some (pyRound q))
    | some (.str s) =>
      match parseDistanceStr s with
      | none => none
      | some (q, u) => some (some (pyRound (DISTANCE_FACTORS u * q)))
  match sdVal with
  | none => none
  | some sd =>
    some
      { av := k.aperture
        sv := k.real_iso
        svm := k.market_iso
        isomode := k.isomode.map pyInt
        tv := k.shutter_speed
        nd :=
          if k.nd_filter.getD false then
            (if k.nd_filter.getD false then some 1 else some 2)
          else none
        sd := sd
        dng := if k.dng.getD false then some 1 else none
        raw := if k.dng.getD false || k.raw.getD false then some 1 else none
        fformat :=
          if k.stream.getD true then
            (if k.dng.getD false then some 6
             else if k.raw.getD false then some 4
             else some 1)
          else none
        info := if k.stream.getD true then none else some true }

/-- The spec's per-unit multiplier table
`factor = (mm:1, cm:100, m:1000, ft:304.8, in:25.4)`, written from the spec's
words to be compared against the source's `DISTANCE_FACTORS`. -/
def specDistanceFactor : DistUnit → ℚ
  | .mm => 1
  | .cm => 100
  | .m => 1000
  | .ft => 304.8
  | .inch => 25.4

/-- The `dng_info` table of `_shoot_streaming`: the cached per-capture header
and the thumbnail extracted from the current raw chunk. -/
structure DngInfo where
  hdr : List ℕ := []
  thumb : List ℕ := []

/-- A chunk delivered by the device during a streaming DNG capture: the DNG
header chunk (dispatched to the `dng_hdr` handler) or a raw chunk (dispatched
to the `raw` handler; `chdku.rc_process_dng` extracts `thumb` from it). -/
inductive RcChunk where
  | hdrChunk (data : List ℕ)
  | rawChunk (thumb data : List ℕ)

/-- The `dng_hdr` handler closure: `dng_info.hdr = chunk.data`. -/
def dng_hdr_handler (info : DngInfo) (data : List ℕ) : DngInfo :=
  { info with hdr := data }

/-- The `raw` handler closure of `_shoot_streaming` (device.py lines
497-519): for each raw chunk it appends `dng_info.hdr` to `img_data`, lets
`chdku.rc_process_dng` extract the thumbnail into `dng_info.thumb`, then
appends the thumbnail and the raw chunk data. -/
def raw_handler (info : DngInfo) (img_data : List (List ℕ)) (thumb data : List ℕ) :
    DngInfo × List (List ℕ) :=
  let img1 := img_data ++ [info.hdr]
  let info1 := { info with thumb := thumb }
  (info1, img1 ++ [info1.thumb] ++ [data])

/-- The chunk-retrieval loop (`con:capture_get_data`): each incoming chunk is
dispatched to its handler, threading `dng_info` and `img_data`. -/
def capture_chunks : DngInfo → List (List ℕ) → List RcChunk → List (List ℕ)
  | _, img_data, [] => img_data
  | info, img_data, RcChunk.hdrChunk d :: restChunks =>
    capture_chunks (dng_hdr_handler info d) img_data restChunks
  | info, img_data, RcChunk.rawChunk t d :: restChunks =>
    let r := raw_handler info img_data t d
    capture_chunks r.1 r.2 restChunks

/-- `_shoot_streaming` with `dng=True`: run the chunk loop and concatenate
`img_data` (the final Lua closure `out_data = out_data .. c.data:string()`). -/
def shoot_streaming_dng (chunks : List RcChunk) : List ℕ :=
  (capture_chunks {} [] chunks).flatten

mutual
/-- A decoded remote (Lua) value as seen through the lupa bridge: a scalar or
a table with string keys. -/
inductive LuaVal where
  | num (n : ℚ)
  | str (s : String)
  | boolean (b : Bool)
  | table (entries : LuaEntries)

/-- The entry list of a Lua table (keys in iteration order). -/
inductive LuaEntries where
  | nil
  | cons (key : String) (val : LuaVal) (rest : LuaEntries)
end

/-- The keys of a table, in order. -/
def LuaEntries.keys : LuaEntries → List String
  | .nil => []
  | .cons k _ rest => k :: rest.keys

/-- The Python value produced by `parse_table`: scalars, a string-keyed dict,
or a tuple. -/
inductive PyVal where
  | num (n : ℚ)
  | str (s : String)
  | boolean (b : Bool)
  | pydict (entries : List (String × PyVal))
  | pytup (vals : List PyVal)

/-- Python 2 `str.isdigit`: non-empty and all characters decimal digits. -/
def pythonIsDigit (s : String) : Bool := !s.data.isEmpty && s.data.all Char.isDigit

mutual
/-- A value inside a table: scalars pass through, nested tables are decoded
by `parse_table` (the `isinstance(val, LuaTable)` branch). -/
def parse_lua_val : LuaVal → PyVal
  | .num n => .num n
  | .str s => .str s
  | .boolean b => .boolean b
  | .table t => parse_table t

/-- `parse_table` from lua.py (lines 142-149): decode every entry, then, if
`all(x.isdigit() for x in out.iterkeys())`, present the values as a tuple,
otherwise as a dict. -/
def parse_table (t : LuaEntries) : PyVal :=
  let out := parse_entries t
  if t.keys.all pythonIsDigit then .pytup (out.map Prod.snd) else .pydict out

/-- The `for key, val in out.iteritems()` decoding loop. -/
def parse_entries : LuaEntries → List (String × PyVal)
  | .nil => []
  | .cons k v rest => (k, parse_lua_val v) :: parse_entries rest
end

/-- Whether a decoded value is presented as an ordered sequence (tuple). -/
def PyVal.isTuple : PyVal → Bool
  | .pytup _ => true
  | _ => false

/-- Insert into a sorted list of naturals. -/
def insertSorted (n : ℕ) : List ℕ → List ℕ
  | [] => [n]
  | m :: ms => if n ≤ m then n :: m :: ms else m :: insertSorted n ms

/-- Insertion sort on naturals. -/
def sortNat (l : List ℕ) : List ℕ := l.foldr insertSorted []

/-- Numeric value of a key that is a non-empty string of decimal digits. -/
def digitKeyNum (s : String) : Option ℕ :=
  if pythonIsDigit s then some (s.data.foldl (fun a c => 10 * a + (c.toNat - 48)) 0) else none

/-- All keys as numbers, if every key is a digit string. -/
def keyNums : List String → Option (List ℕ)
  | [] => some []
  | s :: rest =>
    match digitKeyNum s, keyNums rest with
    | some n, some l => some (n :: l)
    | _, _ => none

/-- The claim's condition, written from its words: the keys form a contiguous
zero- or one-based run of integers, i.e. as a multiset they are exactly
`0..n-1` or `1..n`. -/
def contiguousZeroOneRun (keys : List String) : Bool :=
  match keyNums keys with
  | none => false
  | some vs =>
    sortNat vs == List.range vs.length
      || sortNat vs == (List.range vs.length).map (fun k => k + 1)

/-! ### Theorems -/

theorem to_camerapath_rooted (rest : List Char) :
    to_camerapath ('A' :: '/' :: rest) = 'A' :: '/' :: rest := by
  unfold to_camerapath
  rw [if_pos]
  simp only [List.map_cons, listStartsWith]
  decide

theorem to_camerapath_shape (p : List Char) :
    to_camerapath p = p ∨ ∃ rest, to_camerapath p = 'A' :: '/' :: rest := by
  unfold to_camerapath
  by_cases h : listStartsWith (p.map Char.toLower) ['a', '/'] = true
  · left; rw [if_pos h]
  · rw [if_neg h]
    cases p with
    | nil => right; exact ⟨[], rfl⟩
    | cons c cs =>
      by_cases hc : c = '/'
      · left; simp [posixJoinA, hc]
      · right; exact ⟨c :: cs, by simp [posixJoinA, hc]⟩

/-- C8: remote path normalization is idempotent: a path that already starts
with the storage-root prefix `A/` is returned unchanged, normalizing twice
equals normalizing once, and `to_camerapath "foo.jpg" = to_camerapath
"A/foo.jpg"`. -/
theorem to_camerapath_idempotent :
    (∀ p : List Char, listStartsWith p ['A', '/'] = true → to_camerapath p = p)
    ∧ (∀ p : List Char, to_camerapath (to_camerapath p) = to_camerapath p)
    ∧ to_camerapath ("foo.jpg".toList) = to_camerapath ("A/foo.jpg".toList) := by
  refine ⟨?_, ?_, by decide⟩
  · intro p hp
    cases p with
    | nil => simp [listStartsWith] at hp
    | cons a as =>
      cases as with
      | nil => simp [listStartsWith] at hp
      | cons b bs =>
        simp only [listStartsWith, Bool.and_eq_true, beq_iff_eq] at hp
        obtain ⟨ha, hb, -⟩ := hp
        subst ha; subst hb
        exact to_camerapath_rooted bs
  · intro p
    rcases to_camerapath_shape p with h | ⟨rest, h⟩
    · rw [h]; exact h
    · rw [h, to_camerapath_rooted]

/-- Witness for C8: the theorem applied at concrete paths. -/
theorem to_camerapath_idempotent_witness :
    (listStartsWith ("A/DCIM".toList) ['A', '/'] = true
      ∧ to_camerapath ("A/DCIM".toList) = "A/DCIM".toList)
    ∧ to_camerapath (to_camerapath ("x".toList)) = to_camerapath ("x".toList) :=
  ⟨⟨by decide, to_camerapath_idempotent.1 ("A/DCIM".toList) (by decide)⟩,
    to_camerapath_idempotent.2.1 ("x".toList)⟩

/-- C10: `apex_to_apex96` returns `round(96*apex)` when `96*apex > 0` and
`-round(96*apex)` otherwise, so the result is always non-negative: the sign of
a negative APEX value is discarded. -/
theorem apex_to_apex96_nonneg :
    ∀ q : ℚ, apex_to_apex96 q = (if 0 < 96 * q then pyRound (96 * q) else -(pyRound (96 * q)))
      ∧ 0 ≤ apex_to_apex96 q := by
  intro q
  have hm : q * 96 = 96 * q := mul_comm q 96
  constructor
  · simp only [apex_to_apex96, hm]
  · unfold apex_to_apex96 pyRound
    by_cases h : 0 < q * 96
    · rw [if_pos h, if_pos (le_of_lt h)]
      have : (0 : ℚ) ≤ q * 96 + 1 / 2 := by linarith
      exact_mod_cast Int.le_floor.mpr (by exact_mod_cast this)
    · rw [if_neg h]
      push_neg at h
      by_cases h0 : 0 ≤ q * 96
      · have hq : q * 96 = 0 := le_antisymm h h0
        rw [if_pos h0, hq]
        norm_num
      · rw [if_neg h0]
        push_neg at h0
        have : q * 96 - 1 / 2 ≤ 0 := by linarith
        have hc : (⌈q * 96 - 1 / 2⌉ : ℤ) ≤ 0 := Int.ceil_le.mpr (by exact_mod_cast this)
        omega

/-- C4 counterexample: `lua_execute("get_mode()", wait=True, do_return=True)`
has no `"return"` substring, yet no local error is raised — the code is sent
to the device with `"return "` prepended, refuting the claim that every such
call fails locally. -/
theorem lua_execute_autoreturn_cex :
    listHasSub ("get_mode()".toList) ("return".toList) = false
    ∧ lua_execute ("get_mode()".toList) true true
        = LuaExecOutcome.sent ("return get_mode()".toList) := by
  constructor <;> decide

/-- C4 amended: with `wait=True`, `do_return=True` and no `"return"` substring
in the source, a local error is raised if and only if the source contains a
`;` outside its final character or a newline; otherwise `"return "` is
prepended and the code is sent. -/
theorem lua_execute_return_check (code : List Char)
    (h : listHasSub code ("return".toList) = false) :
    lua_execute code true true =
      if code.dropLast.contains ';' || code.contains '\n' then
        LuaExecOutcome.localError
          ("do_return was specified, but no return statement was specified in the supplied lua_code".toList)
      else LuaExecOutcome.sent (("return ".toList) ++ code) := by
  unfold lua_execute
  rw [h]
  cases hs : code.dropLast.contains ';' <;> cases hn : code.contains '\n' <;> simp

/-- Witness for C4: a two-statement source without `return` is rejected
locally. -/
theorem lua_execute_return_check_witness :
    listHasSub ("a(); b()".toList) ("return".toList) = false
    ∧ lua_execute ("a(); b()".toList) true true
        = LuaExecOutcome.localError
            ("do_return was specified, but no return statement was specified in the supplied lua_code".toList) :=
  ⟨by decide, by rw [lua_execute_return_check ("a(); b()".toList) (by decide)]; decide⟩

/-- C5: if the remote mode getter never reports the requested target mode,
`switch_mode` executes its poll loop for exactly 300 iterations, sleeping
10 ms between polls (3000 ms total), and then fails with the mode-switch
error (`PTPError('Could not switch mode')`) instead of returning silently. -/
theorem switch_mode_timeout (g : ℕ → Bool) (t : Bool) (h : ∀ n, g n ≠ t) :
    switch_mode g t = ⟨true, 300, 3000⟩ := by
  have h0 : (g 0 == t) = false := by
    cases hg : g 0 <;> cases t <;> simp_all
  have hobs : ∀ n, modeObs (fun k => g (k + 1)) n ≠ (if t then 1 else 0) := by
    intro n
    have hn := h (n + 1)
    unfold modeObs
    cases hgn : g (n + 1) <;> cases t <;> simp_all
  have hloop : ∀ fuel i, modePollLoop (fun k => g (k + 1)) (if t then 1 else 0) i fuel = i + fuel := by
    intro fuel
    induction fuel with
    | zero => intro i; simp [modePollLoop]
    | succ f ih =>
      intro i
      rw [modePollLoop, if_pos (hobs i), ih (i + 1)]
      omega
  unfold switch_mode
  rw [h0]
  simp only [Bool.false_eq_true, if_false, hloop 300 0]
  have : (modeObs (fun k => g (k + 1)) (0 + 300) != (if t then 1 else 0)) = true :=
    bne_iff_ne.mpr (hobs (0 + 300))
  rw [this]

/-- Witness for C5: a getter stuck in play mode while record is requested. -/
theorem switch_mode_timeout_witness :
    switch_mode (fun _ => false) true = ⟨true, 300, 3000⟩ :=
  switch_mode_timeout (fun _ => false) true (fun _ => Bool.false_ne_true)

/-- C9: requesting frames with a format outside ppm, jpg, png fails with the
unsupported-format `ValueError`, so the generator never reaches a device
fetch: the whole trace is the error, with no `deviceFetch` event. -/
theorem get_frames_bad_format (format : List Char) (scaled : Option Bool) (numFrames : ℕ)
    (h : FRAME_FORMATS.contains format = false) :
    get_frames format scaled numFrames
      = Except.error ("format has to be one of ppm, jpg or png".toList) := by
  unfold get_frames
  rw [h]
  rfl

/-- Witness for C9: `format='gif'` is rejected. -/
theorem get_frames_bad_format_witness :
    FRAME_FORMATS.contains ("gif".toList) = false
    ∧ get_frames ("gif".toList) none 5
        = Except.error ("format has to be one of ppm, jpg or png".toList) :=
  ⟨by decide, get_frames_bad_format ("gif".toList) none 5 (by decide)⟩

/-- C1 (code bug): `shoot` calls `self._validate_shoot_args()` without
forwarding its keyword arguments, so a call with both `real_iso` and
`isomode` set passes the validation phase without error and proceeds to the
device — even though the validator itself, applied to those arguments as its
own source and the spec prescribe, rejects them. -/
theorem shoot_validation_bypassed :
    shoot_validation { real_iso := some 100, isomode := some 400 } = Except.ok ()
    ∧ validate_shoot_args { real_iso := some 100, isomode := some 400 }
        = Except.error ("Only one of real_iso, market_iso or isomode can be set.".toList) := by
  constructor <;> rfl

/-- C6 (code bug): in the options record built by `_parse_shoot_args` the
`nd` key is `1` when `nd_filter=True`, but it is absent (not `2`) when
`nd_filter=False`, because the truthiness guard `if kwargs.get('nd_filter'):`
skips the assignment for `False`, making the literal `else 2` branch dead
code; `nd` is also absent when `nd_filter` is unset. -/
theorem parse_shoot_args_nd_encoding :
    (parse_shoot_args { nd_filter := some true }).map ShootOptions.nd = some (some 1)
    ∧ (parse_shoot_args { nd_filter := some false }).map ShootOptions.nd = some none
    ∧ (parse_shoot_args {}).map ShootOptions.nd = some none := by
  refine ⟨rfl, rfl, rfl⟩

/-- C7: for every distance argument given as a string of the form
`<number><unit>` with unit in mm, cm, m, ft, in, the `sd` value placed in the
shoot options record is `round(number * factor[unit])` with
`factor = (mm:1, cm:100, m:1000, ft:304.8, in:25.4)` as the spec states. -/
theorem distance_sd_formula (k : ShootKwargs) (s : List Char) (q : ℚ) (u : DistUnit)
    (hd : k.distance = some (DistanceArg.str s))
    (hp : parseDistanceStr s = some (q, u)) :
    ∃ opts, parse_shoot_args k = some opts
      ∧ opts.sd = some (pyRound (specDistanceFactor u * q)) := by
  have hfac : DISTANCE_FACTORS u = specDistanceFactor u := by
    cases u <;> norm_num [DISTANCE_FACTORS, specDistanceFactor]
  simp only [parse_shoot_args, hd, hp]
  exact ⟨_, rfl, by rw [hfac]⟩

/-- Witness for C7: `distance="7cm"` yields `sd = round(100 * 7)`. -/
theorem distance_sd_formula_witness :
    parseDistanceStr ("7cm".toList) = some ((7 : ℚ), DistUnit.cm)
    ∧ ∃ opts, parse_shoot_args { distance := some (DistanceArg.str ("7cm".toList)) } = some opts
        ∧ opts.sd = some (pyRound (specDistanceFactor DistUnit.cm * (7 : ℚ))) :=
  ⟨rfl,
    distance_sd_formula { distance := some (DistanceArg.str ("7cm".toList)) }
      ("7cm".toList) (7 : ℚ) DistUnit.cm rfl rfl⟩

/-- C2 counterexample: for a header chunk `[9]` and two (thumbnail, raw)
pairs `([1],[2])` and `([3],[4])`, the assembled output is *not*
`header, thumb1, raw1, thumb2, raw2` — the cached header is re-emitted before
the second pair as well. -/
theorem dng_header_once_cex :
    shoot_streaming_dng
        [RcChunk.hdrChunk [9], RcChunk.rawChunk [1] [2], RcChunk.rawChunk [3] [4]]
      ≠ [9] ++ [1] ++ [2] ++ [3] ++ [4] := by
  decide

/-- C2 amended: in a streaming DNG capture with one header chunk followed by
two (thumbnail, raw) chunk pairs, the assembled output is
`header, thumb1, raw1, header, thumb2, raw2`: the cached header is emitted
before every (thumbnail, raw) pair, not only once at the front. -/
theorem dng_assembly_repeats_header (hdr t1 r1 t2 r2 : List ℕ) :
    shoot_streaming_dng [RcChunk.hdrChunk hdr, RcChunk.rawChunk t1 r1, RcChunk.rawChunk t2 r2]
      = hdr ++ t1 ++ r1 ++ hdr ++ t2 ++ r2 := by
  simp [shoot_streaming_dng, capture_chunks, raw_handler, dng_hdr_handler, List.append_assoc]

/-- C3 counterexample: the decoded table with keys "2" and "7" is presented
as a tuple by `parse_table`, although those keys do not form a contiguous
zero- or one-based integer run — refuting the claimed iff. -/
theorem parse_table_contiguity_cex :
    (parse_table (LuaEntries.cons "2" (LuaVal.num 10) (LuaEntries.cons "7" (LuaVal.num 20) LuaEntries.nil))).isTuple = true
    ∧ contiguousZeroOneRun ["2", "7"] = false := by
  constructor
  · rw [parse_table]
    rfl
  · decide

/-- C3 amended: a decoded table is presented as an ordered sequence (tuple)
if and only if every key is a non-empty string of decimal digits (Python
`str.isdigit`), regardless of contiguity or base; otherwise it is a
string-keyed mapping.  Nested tables are decoded recursively by
`parse_lua_val`. -/
theorem parse_table_tuple_iff_digit_keys (t : LuaEntries) :
    (parse_table t).isTuple = t.keys.all pythonIsDigit
    ∧ parse_lua_val (LuaVal.table t) = parse_table t := by
  constructor
  · rw [parse_table]
    by_cases h : t.keys.all pythonIsDigit = true
    · rw [h]; simp [PyVal.isTuple]
    · simp only [Bool.not_eq_true] at h
      rw [h]; simp [PyVal.isTuple]
  · rw [parse_lua_val]

end Chdkptp
